import Mathlib

/-
Shallow embedding of the Selenium Grid exporter (file src/unnamed/part_000,
package main). The exporter keeps a set of Prometheus gauges and gauge
vectors; scrape() fetches a GraphQL status document, decodes it and
republishes the metrics. Modelling choices, all taken from the source:

* float64 metric values are modelled as rationals (exact for every value
  exercised by the claims);
* a Prometheus Gauge starts at 0; a GaugeVec starts empty and is modelled
  as a map from its label tuple to an optional value (none = no child with
  that label combination exists);
* GaugeVec.Reset() empties the map; WithLabelValues(...).Set(v) stores v
  at the given label tuple;
* the network and json.Unmarshal are oracles: one refresh consumes either
  a fetch failure, a fetch success whose body fails to decode, or a fetch
  success decoded into a hubResponse value. scrape() itself is the exact
  branch structure of the source (lines 243-298 of part_000).
-/

/-- Grid-level block of the decoded GraphQL response (hubResponse.Data.Grid
in the source; the json envelope Data is flattened away). -/
structure GridInfo where
  totalSlots : ℚ
  maxSession : ℚ
  sessionCount : ℚ
  sessionQueueSize : ℚ
  nodeCount : ℚ
  version : String
deriving DecidableEq

/-- One node entry of the decoded response (HubResponseNode in the source). -/
structure HubResponseNode where
  id : String
  uri : String
  status : String
  maxSession : ℚ
  slotCount : ℚ
  sessionCount : ℚ
  version : String
deriving DecidableEq

/-- Decoded GraphQL response (hubResponse in the source;
Data.NodesInfo.Nodes is the nodes list). -/
structure hubResponse where
  grid : GridInfo
  nodes : List HubResponseNode
deriving DecidableEq

/-- A GaugeVec keyed by label tuple k: none means no child for that
label combination is currently exposed. -/
def GaugeVec (k : Type) : Type := k → Option ℚ

/-- GaugeVec.Reset(): drop every child. -/
def resetVec {k : Type} : GaugeVec k := fun _ => none

/-- WithLabelValues(labels...).Set(v): create or overwrite the child at
the given label tuple with value v. -/
def setVec {k : Type} [DecidableEq k] (g : GaugeVec k) (key : k) (v : ℚ) : GaugeVec k :=
  Function.update g key (some v)

/-- The published metric state of the Exporter struct: the five grid
scalar gauges plus up, the grid version GaugeVec (label: version) and the
five node GaugeVecs (labels: node id, node uri, and status resp. version
where present). -/
structure Exporter where
  up : ℚ
  totalSlots : ℚ
  maxSession : ℚ
  sessionCount : ℚ
  sessionQueueSize : ℚ
  nodeCount : ℚ
  version : GaugeVec String
  nodeStatus : GaugeVec (String × String × String)
  nodeMaxSession : GaugeVec (String × String)
  nodeSlotCount : GaugeVec (String × String)
  nodeSessionCount : GaugeVec (String × String)
  nodeVersion : GaugeVec (String × String × String)

/-- NewExporter: every scalar gauge starts at 0, every GaugeVec empty. -/
def initialExporter : Exporter where
  up := 0
  totalSlots := 0
  maxSession := 0
  sessionCount := 0
  sessionQueueSize := 0
  nodeCount := 0
  version := resetVec
  nodeStatus := resetVec
  nodeMaxSession := resetVec
  nodeSlotCount := resetVec
  nodeSessionCount := resetVec
  nodeVersion := resetVec

/-- Outcome of one fetch-and-decode step feeding one scrape() call:
the fetch returned an error, or the body failed to decode, or the body
decoded to a hubResponse. -/
inductive ScrapeInput where
  | fetchError : ScrapeInput
  | decodeError : ScrapeInput
  | ok : hubResponse → ScrapeInput

/-- The block of five Reset() calls on the node GaugeVecs, as it appears
on both failure paths and before repopulation on the success path. -/
def clearNodeMetrics (e : Exporter) : Exporter :=
  { e with
    nodeStatus := resetVec
    nodeMaxSession := resetVec
    nodeSlotCount := resetVec
    nodeSessionCount := resetVec
    nodeVersion := resetVec }

/-- Loop body of the per-node publication loop in scrape(). -/
def applyNode (e : Exporter) (n : HubResponseNode) : Exporter :=
  { e with
    nodeStatus := setVec e.nodeStatus (n.id, n.uri, n.status) 1
    nodeMaxSession := setVec e.nodeMaxSession (n.id, n.uri) n.maxSession
    nodeSlotCount := setVec e.nodeSlotCount (n.id, n.uri) n.slotCount
    nodeSessionCount := setVec e.nodeSessionCount (n.id, n.uri) n.sessionCount
    nodeVersion := setVec e.nodeVersion (n.id, n.uri, n.version) 1 }

/-- scrape() from part_000 lines 243-298. Fetch error: up set to 0 and
the five node GaugeVecs reset. Decode error: up was already set to 1
after the successful fetch, then set to 0, and the node GaugeVecs reset.
Success: up set to 1, the five grid scalars set from the grid block, the
grid version GaugeVec child at the snapshot version set to 1 (no Reset of
the version GaugeVec appears in the source), then the node GaugeVecs are
reset and repopulated from the nodes list. -/
def scrape (e : Exporter) (i : ScrapeInput) : Exporter :=
  match i with
  | ScrapeInput.fetchError => clearNodeMetrics { e with up := 0 }
  | ScrapeInput.decodeError => clearNodeMetrics { { e with up := 1 } with up := 0 }
  | ScrapeInput.ok r =>
    let e1 := { e with up := 1 }
    let e2 := { e1 with
      totalSlots := r.grid.totalSlots
      maxSession := r.grid.maxSession
      sessionCount := r.grid.sessionCount
      sessionQueueSize := r.grid.sessionQueueSize
      nodeCount := r.grid.nodeCount
      version := setVec e1.version r.grid.version 1 }
    r.nodes.foldl applyNode (clearNodeMetrics e2)

/-- A sequence of refreshes, applied oldest first. -/
def scrapeSeq (e : Exporter) (l : List ScrapeInput) : Exporter :=
  l.foldl scrape e

/-- Grid versions of the successfully decoded snapshots of a refresh
sequence, in order. -/
def okVersions : List ScrapeInput → List String
  | [] => []
  | ScrapeInput.ok r :: l => r.grid.version :: okVersions l
  | ScrapeInput.fetchError :: l => okVersions l
  | ScrapeInput.decodeError :: l => okVersions l

/-- Typed view of the outcomes of fetch() (part_000 lines 300-333):
request construction failure, transport failure, bad HTTP status, body
read failure. The source wraps these in untyped errors; the constructors
name the four source return branches. -/
inductive FetchError where
  | requestError : FetchError
  | transportError : FetchError
  | badStatus : Nat → FetchError
  | readError : FetchError
deriving DecidableEq

/-- Transport-level outcome feeding one fetch() call: request creation
failed, the HTTP round trip failed, or a response arrived with a status
code, a flag telling whether reading the body succeeds, and the body. -/
inductive HttpOutcome where
  | requestCreationError : HttpOutcome
  | transportError : HttpOutcome
  | response : Nat → Bool → String → HttpOutcome

/-- fetch() from part_000 lines 300-333: errors out on request creation
or transport failure; then errors out whenever resp.StatusCode differs
from http.StatusOK (which is exactly 200); then returns the body, or an
error if reading it fails. -/
def fetch (o : HttpOutcome) : Except FetchError String :=
  match o with
  | HttpOutcome.requestCreationError => Except.error FetchError.requestError
  | HttpOutcome.transportError => Except.error FetchError.transportError
  | HttpOutcome.response statusCode readOk body =>
    if statusCode ≠ 200 then Except.error (FetchError.badStatus statusCode)
    else if readOk then Except.ok body
    else Except.error FetchError.readError

/-- The five node GaugeVecs bundled: the node-scoped part of the
published state. -/
structure NodeVecs where
  status : GaugeVec (String × String × String)
  maxSession : GaugeVec (String × String)
  slotCount : GaugeVec (String × String)
  sessionCount : GaugeVec (String × String)
  nodeVersion : GaugeVec (String × String × String)

/-- Projection of an Exporter onto its node-scoped GaugeVecs. -/
def nodeProj (e : Exporter) : NodeVecs :=
  ⟨e.nodeStatus, e.nodeMaxSession, e.nodeSlotCount, e.nodeSessionCount, e.nodeVersion⟩

/-- The empty node-scoped state: all five node GaugeVecs empty. -/
def emptyNodeVecs : NodeVecs :=
  ⟨resetVec, resetVec, resetVec, resetVec, resetVec⟩

/-- The grid-scoped part of the published state: up, the five grid
scalars and the grid version GaugeVec. -/
structure GridView where
  up : ℚ
  totalSlots : ℚ
  maxSession : ℚ
  sessionCount : ℚ
  sessionQueueSize : ℚ
  nodeCount : ℚ
  version : GaugeVec String

/-- Projection of an Exporter onto its grid-scoped state. -/
def gridProj (e : Exporter) : GridView :=
  ⟨e.up, e.totalSlots, e.maxSession, e.sessionCount, e.sessionQueueSize, e.nodeCount, e.version⟩

/-- The concrete snapshot of the spec scenario: one grid block with 72
total slots and one node n1. -/
def respC6 : hubResponse :=
  ⟨⟨72, 24, 0, 0, 1, "4.1.0"⟩,
   [⟨"n1", "http://10.0.1.1:5555", "UP", 8, 24, 0, "4.1.0"⟩]⟩

/-- Published state after one successful refresh of a fresh exporter with
the spec scenario snapshot. -/
def c6state : Exporter := scrape initialExporter (ScrapeInput.ok respC6)

/-- A snapshot carrying grid version 4.1.0. -/
def resp41 : hubResponse := ⟨⟨10, 5, 1, 0, 2, "4.1.0"⟩, []⟩

/-- A snapshot carrying grid version 4.2.0. -/
def resp42 : hubResponse := ⟨⟨10, 5, 1, 0, 2, "4.2.0"⟩, []⟩

/-- A snapshot carrying grid version 4.4.0. -/
def resp44 : hubResponse := ⟨⟨6, 3, 0, 0, 1, "4.4.0"⟩, []⟩

/-- A snapshot carrying grid version 4.5.0. -/
def resp45 : hubResponse := ⟨⟨8, 4, 2, 1, 2, "4.5.0"⟩, []⟩

-- Pointwise view of a GaugeVec write.
theorem setVec_apply {k : Type} [DecidableEq k] (g : GaugeVec k) (key x : k) (v : ℚ) :
    setVec g key v x = if x = key then some v else g x :=
  Function.update_apply g key (some v) x

-- Both failure branches of scrape reduce to the same state transformer.
theorem scrape_fetchError_eq (e : Exporter) :
    scrape e ScrapeInput.fetchError = clearNodeMetrics { e with up := 0 } := rfl

theorem scrape_decodeError_eq (e : Exporter) :
    scrape e ScrapeInput.decodeError = clearNodeMetrics { e with up := 0 } := rfl

-- The node projection of applyNode depends only on the node projection
-- of its input.
theorem nodeProj_applyNode {a b : Exporter} (h : nodeProj a = nodeProj b)
    (n : HubResponseNode) : nodeProj (applyNode a n) = nodeProj (applyNode b n) := by
  have h1 : a.nodeStatus = b.nodeStatus := congrArg NodeVecs.status h
  have h2 : a.nodeMaxSession = b.nodeMaxSession := congrArg NodeVecs.maxSession h
  have h3 : a.nodeSlotCount = b.nodeSlotCount := congrArg NodeVecs.slotCount h
  have h4 : a.nodeSessionCount = b.nodeSessionCount := congrArg NodeVecs.sessionCount h
  have h5 : a.nodeVersion = b.nodeVersion := congrArg NodeVecs.nodeVersion h
  simp only [nodeProj, applyNode, h1, h2, h3, h4, h5]

theorem nodeProj_foldl : ∀ (ns : List HubResponseNode) {a b : Exporter},
    nodeProj a = nodeProj b →
    nodeProj (ns.foldl applyNode a) = nodeProj (ns.foldl applyNode b)
  | [], _, _, h => h
  | n :: ns, _, _, h => nodeProj_foldl ns (nodeProj_applyNode h n)

-- The node-scoped result of a successful scrape does not depend on the
-- starting state: the node GaugeVecs are reset before repopulation.
theorem nodeProj_scrape_ok (a b : Exporter) (r : hubResponse) :
    nodeProj (scrape a (ScrapeInput.ok r)) = nodeProj (scrape b (ScrapeInput.ok r)) := by
  simp only [scrape]
  exact nodeProj_foldl r.nodes rfl

-- applyNode leaves the grid-scoped state untouched.
theorem gridProj_foldl : ∀ (ns : List HubResponseNode) (e : Exporter),
    gridProj (ns.foldl applyNode e) = gridProj e
  | [], _ => rfl
  | n :: ns, e => (gridProj_foldl ns (applyNode e n)).trans rfl

-- Grid-scoped result of a successful scrape.
theorem scrape_ok_gridProj (e : Exporter) (r : hubResponse) :
    gridProj (scrape e (ScrapeInput.ok r)) =
      ⟨1, r.grid.totalSlots, r.grid.maxSession, r.grid.sessionCount,
       r.grid.sessionQueueSize, r.grid.nodeCount, setVec e.version r.grid.version 1⟩ := by
  simp only [scrape]
  rw [gridProj_foldl]
  rfl

theorem scrape_ok_up (e : Exporter) (r : hubResponse) :
    (scrape e (ScrapeInput.ok r)).up = 1 :=
  congrArg GridView.up (scrape_ok_gridProj e r)

theorem scrape_ok_totalSlots (e : Exporter) (r : hubResponse) :
    (scrape e (ScrapeInput.ok r)).totalSlots = r.grid.totalSlots :=
  congrArg GridView.totalSlots (scrape_ok_gridProj e r)

theorem scrape_ok_maxSession (e : Exporter) (r : hubResponse) :
    (scrape e (ScrapeInput.ok r)).maxSession = r.grid.maxSession :=
  congrArg GridView.maxSession (scrape_ok_gridProj e r)

theorem scrape_ok_sessionCount (e : Exporter) (r : hubResponse) :
    (scrape e (ScrapeInput.ok r)).sessionCount = r.grid.sessionCount :=
  congrArg GridView.sessionCount (scrape_ok_gridProj e r)

theorem scrape_ok_sessionQueueSize (e : Exporter) (r : hubResponse) :
    (scrape e (ScrapeInput.ok r)).sessionQueueSize = r.grid.sessionQueueSize :=
  congrArg GridView.sessionQueueSize (scrape_ok_gridProj e r)

theorem scrape_ok_nodeCount (e : Exporter) (r : hubResponse) :
    (scrape e (ScrapeInput.ok r)).nodeCount = r.grid.nodeCount :=
  congrArg GridView.nodeCount (scrape_ok_gridProj e r)

theorem scrape_ok_version (e : Exporter) (r : hubResponse) :
    (scrape e (ScrapeInput.ok r)).version = setVec e.version r.grid.version 1 :=
  congrArg GridView.version (scrape_ok_gridProj e r)

theorem scrape_ok_version_apply (e : Exporter) (r : hubResponse) (v : String) :
    (scrape e (ScrapeInput.ok r)).version v =
      if v = r.grid.version then some 1 else e.version v := by
  rw [scrape_ok_version]
  exact setVec_apply e.version r.grid.version v 1

-- Two exporters agreeing on both projections are equal.
theorem exporter_eq_of_proj {a b : Exporter} (hg : gridProj a = gridProj b)
    (hn : nodeProj a = nodeProj b) : a = b := by
  obtain ⟨u1, t1, m1, s1, q1, c1, v1, a1, a2, a3, a4, a5⟩ := a
  obtain ⟨u2, t2, m2, s2, q2, c2, v2, b1, b2, b3, b4, b5⟩ := b
  simp only [gridProj, nodeProj, GridView.mk.injEq, NodeVecs.mk.injEq] at hg hn
  obtain ⟨g1, g2, g3, g4, g5, g6, g7⟩ := hg
  obtain ⟨n1, n2, n3, n4, n5⟩ := hn
  subst g1 g2 g3 g4 g5 g6 g7 n1 n2 n3 n4 n5
  rfl

theorem scrapeSeq_cons (e : Exporter) (i : ScrapeInput) (l : List ScrapeInput) :
    scrapeSeq e (i :: l) = scrapeSeq (scrape e i) l := rfl

theorem scrapeSeq_append_single (e : Exporter) (l : List ScrapeInput) (i : ScrapeInput) :
    scrapeSeq e (l ++ [i]) = scrape (scrapeSeq e l) i := by
  simp [scrapeSeq, List.foldl_append]

theorem scrape_version_apply (e : Exporter) (i : ScrapeInput) (v : String) :
    (scrape e i).version v = if v ∈ okVersions [i] then some 1 else e.version v := by
  cases i with
  | fetchError => simp [scrape, clearNodeMetrics, okVersions]
  | decodeError => simp [scrape, clearNodeMetrics, okVersions]
  | ok r =>
    rw [scrape_ok_version_apply]
    simp [okVersions]

-- The grid version GaugeVec accumulates: after any refresh sequence its
-- children are exactly the versions of the successfully decoded
-- snapshots, on top of whatever the starting state held.
theorem scrapeSeq_version : ∀ (l : List ScrapeInput) (e : Exporter) (v : String),
    (scrapeSeq e l).version v = if v ∈ okVersions l then some 1 else e.version v := by
  intro l
  induction l with
  | nil => intro e v; simp [scrapeSeq, okVersions]
  | cons i l ih =>
    intro e v
    rw [scrapeSeq_cons, ih, scrape_version_apply]
    cases i with
    | fetchError => simp [okVersions]
    | decodeError => simp [okVersions]
    | ok r =>
      simp only [okVersions, List.mem_cons, List.mem_singleton, List.not_mem_nil,
        or_false, List.mem_nil_iff]
      by_cases h1 : v ∈ okVersions l
      · simp [h1]
      · by_cases h2 : v = r.grid.version
        · simp [h1, h2]
        · simp [h1, h2]

/-- Claim C1, counterexample: the refresh sequence success(version
4.4.0) then fetch failure ends with the grid version label set still
holding the 4.4.0 child, although the latest refresh failed and the
claim requires the version label set to be empty then. -/
theorem claimC1_counterexample :
    (scrapeSeq initialExporter [ScrapeInput.ok resp44, ScrapeInput.fetchError]).version "4.4.0"
      = some 1 := by decide

/-- Claim C1 (amended): after any refresh, the per-node metric set
(nodeStatus, nodeMaxSession, nodeSlotCount, nodeSessionCount,
nodeVersion) reflects exactly the nodes of the latest successfully
decoded snapshot, or is empty if the latest refresh failed; the grid
version label set instead accumulates: it holds value 1 at the version
of every successfully decoded snapshot of the sequence, failures do not
clear it and a new version does not displace the old ones. -/
theorem claimC1_amended (l : List ScrapeInput) (i : ScrapeInput) :
    (∀ r, i = ScrapeInput.ok r →
      nodeProj (scrapeSeq initialExporter (l ++ [i])) =
        nodeProj (scrape initialExporter (ScrapeInput.ok r))) ∧
    (i = ScrapeInput.fetchError ∨ i = ScrapeInput.decodeError →
      nodeProj (scrapeSeq initialExporter (l ++ [i])) = emptyNodeVecs) ∧
    (∀ v, (scrapeSeq initialExporter (l ++ [i])).version v =
      if v ∈ okVersions (l ++ [i]) then some 1 else none) := by
  refine ⟨?_, ?_, ?_⟩
  · intro r hr
    subst hr
    rw [scrapeSeq_append_single]
    exact nodeProj_scrape_ok _ _ r
  · intro hf
    rw [scrapeSeq_append_single]
    cases hf with
    | inl h => subst h; rfl
    | inr h => subst h; rfl
  · intro v
    rw [scrapeSeq_version]
    rfl

/-- Claim C1, witness for the amended statement at a concrete sequence:
one success with version 4.4.0 followed by a fetch failure leaves the
node metric set empty and the version label set still holding 4.4.0. -/
theorem claimC1_witness :
    nodeProj (scrapeSeq initialExporter ([ScrapeInput.ok resp44] ++ [ScrapeInput.fetchError]))
      = emptyNodeVecs ∧
    (scrapeSeq initialExporter ([ScrapeInput.ok resp44] ++ [ScrapeInput.fetchError])).version "4.4.0"
      = some 1 :=
  ⟨(claimC1_amended [ScrapeInput.ok resp44] ScrapeInput.fetchError).2.1 (Or.inl rfl),
   ((claimC1_amended [ScrapeInput.ok resp44] ScrapeInput.fetchError).2.2 "4.4.0").trans
     (by decide)⟩

/-- Claim C2, counterexample: refreshing a fresh exporter first with a
snapshot of version 4.1.0 and then with one of version 4.2.0 leaves the
4.1.0 child of the version label set in place with value 1, while the
claim requires that no entry keyed 4.1.0 remain. -/
theorem claimC2_counterexample :
    (scrape (scrape initialExporter (ScrapeInput.ok resp41)) (ScrapeInput.ok resp42)).version
      "4.1.0" = some 1 := by decide

/-- Claim C2 (amended): after two consecutive successful refreshes with
versions 4.1.0 then 4.2.0, the version label set holds value 1 at 4.2.0
and still value 1 at the stale key 4.1.0; every other key is untouched
from the state before the two refreshes. -/
theorem claimC2_amended (e : Exporter) (r1 r2 : hubResponse)
    (h1 : r1.grid.version = "4.1.0") (h2 : r2.grid.version = "4.2.0") :
    (scrape (scrape e (ScrapeInput.ok r1)) (ScrapeInput.ok r2)).version "4.2.0" = some 1 ∧
    (scrape (scrape e (ScrapeInput.ok r1)) (ScrapeInput.ok r2)).version "4.1.0" = some 1 ∧
    (∀ v, v ≠ "4.1.0" → v ≠ "4.2.0" →
      (scrape (scrape e (ScrapeInput.ok r1)) (ScrapeInput.ok r2)).version v = e.version v) := by
  refine ⟨?_, ?_, ?_⟩
  · rw [scrape_ok_version_apply, h2]
    simp
  · rw [scrape_ok_version_apply, h2, scrape_ok_version_apply, h1]
    simp
  · intro v hv1 hv2
    rw [scrape_ok_version_apply, h2, scrape_ok_version_apply, h1]
    simp [hv1, hv2]

/-- Claim C2, witness for the amended statement on a fresh exporter with
the concrete snapshots resp41 and resp42. -/
theorem claimC2_witness :
    (scrape (scrape initialExporter (ScrapeInput.ok resp41)) (ScrapeInput.ok resp42)).version
      "4.2.0" = some 1 ∧
    (scrape (scrape initialExporter (ScrapeInput.ok resp41)) (ScrapeInput.ok resp42)).version
      "4.3.0" = initialExporter.version "4.3.0" :=
  ⟨(claimC2_amended initialExporter resp41 resp42 rfl rfl).1,
   (claimC2_amended initialExporter resp41 resp42 rfl rfl).2.2 "4.3.0"
     (by decide) (by decide)⟩

/-- Claim C3, counterexample: a successful refresh with version 4.5.0
followed by a fetch-error refresh leaves the version label set still
holding the 4.5.0 child, while the claim requires the fetch-error
refresh to leave the grid version label set entirely empty. -/
theorem claimC3_counterexample :
    (scrape (scrape initialExporter (ScrapeInput.ok resp45)) ScrapeInput.fetchError).version
      "4.5.0" = some 1 := by decide

/-- Claim C3 (amended): a fetch-error refresh sets up to 0 and leaves
the per-node metric set entirely empty, regardless of how many entries
it held before; the grid version label set is not cleared and stays
exactly as it was. -/
theorem claimC3_amended (e : Exporter) :
    (scrape e ScrapeInput.fetchError).up = 0 ∧
    nodeProj (scrape e ScrapeInput.fetchError) = emptyNodeVecs ∧
    (scrape e ScrapeInput.fetchError).version = e.version :=
  ⟨rfl, rfl, rfl⟩

/-- Claim C4: a refresh whose payload fails to decode ends in exactly
the state a fetch failure produces from the same starting state: up is
0 and the node-scoped metric set is empty, and no field of the
malformed snapshot reaches any published gauge. -/
theorem claimC4 (e : Exporter) :
    scrape e ScrapeInput.decodeError = scrape e ScrapeInput.fetchError ∧
    (scrape e ScrapeInput.decodeError).up = 0 ∧
    nodeProj (scrape e ScrapeInput.decodeError) = emptyNodeVecs :=
  ⟨rfl, rfl, rfl⟩

/-- Claim C5: a failed refresh, fetch error or decode error, leaves the
five grid scalar gauges totalSlots, maxSession, sessionCount,
sessionQueueSize and nodeCount unchanged and clears only the node-scoped
metric set. -/
theorem claimC5 (e : Exporter) :
    ((scrape e ScrapeInput.fetchError).totalSlots = e.totalSlots ∧
     (scrape e ScrapeInput.fetchError).maxSession = e.maxSession ∧
     (scrape e ScrapeInput.fetchError).sessionCount = e.sessionCount ∧
     (scrape e ScrapeInput.fetchError).sessionQueueSize = e.sessionQueueSize ∧
     (scrape e ScrapeInput.fetchError).nodeCount = e.nodeCount) ∧
    ((scrape e ScrapeInput.decodeError).totalSlots = e.totalSlots ∧
     (scrape e ScrapeInput.decodeError).maxSession = e.maxSession ∧
     (scrape e ScrapeInput.decodeError).sessionCount = e.sessionCount ∧
     (scrape e ScrapeInput.decodeError).sessionQueueSize = e.sessionQueueSize ∧
     (scrape e ScrapeInput.decodeError).nodeCount = e.nodeCount) ∧
    nodeProj (scrape e ScrapeInput.fetchError) = emptyNodeVecs ∧
    nodeProj (scrape e ScrapeInput.decodeError) = emptyNodeVecs :=
  ⟨⟨rfl, rfl, rfl, rfl, rfl⟩, ⟨rfl, rfl, rfl, rfl, rfl⟩, rfl, rfl⟩

/-- Claim C6: one successful refresh of a fresh exporter with the
concrete snapshot of the spec scenario publishes up 1, totalSlots 72,
maxSession 24, sessionCount 0, sessionQueueSize 0, nodeCount 1, version
child 4.1.0 at 1, node status child (n1, http://10.0.1.1:5555, UP) at 1,
node maxSession 8, node slotCount 24, node sessionCount 0 and node
version child (n1, http://10.0.1.1:5555, 4.1.0) at 1. -/
theorem claimC6 :
    c6state.up = 1 ∧
    c6state.totalSlots = 72 ∧
    c6state.maxSession = 24 ∧
    c6state.sessionCount = 0 ∧
    c6state.sessionQueueSize = 0 ∧
    c6state.nodeCount = 1 ∧
    c6state.version "4.1.0" = some 1 ∧
    c6state.nodeStatus ("n1", "http://10.0.1.1:5555", "UP") = some 1 ∧
    c6state.nodeMaxSession ("n1", "http://10.0.1.1:5555") = some 8 ∧
    c6state.nodeSlotCount ("n1", "http://10.0.1.1:5555") = some 24 ∧
    c6state.nodeSessionCount ("n1", "http://10.0.1.1:5555") = some 0 ∧
    c6state.nodeVersion ("n1", "http://10.0.1.1:5555", "4.1.0") = some 1 := by
  decide

/-- Claim C7: scrape is idempotent in effect: for every published state
and every fixed fetch-and-decode outcome, running it twice in a row
yields the same published state as running it once. -/
theorem claimC7 (e : Exporter) (i : ScrapeInput) :
    scrape (scrape e i) i = scrape e i := by
  cases i with
  | fetchError => rfl
  | decodeError => rfl
  | ok r =>
    apply exporter_eq_of_proj
    · rw [scrape_ok_gridProj, scrape_ok_gridProj, scrape_ok_version]
      simp [setVec]
    · exact nodeProj_scrape_ok _ _ r

/-- Claim C8, counterexample: a response with HTTP status 201 — a 2xx
status — and a readable body makes fetch fail with the bad-status error,
while the claim requires every 2xx response to yield the raw body. -/
theorem claimC8_counterexample :
    200 ≤ 201 ∧ 201 < 300 ∧
    fetch (HttpOutcome.response 201 true "raw") =
      Except.error (FetchError.badStatus 201) :=
  ⟨by decide, by decide, rfl⟩

/-- Claim C8 (amended): given that request construction and transport
succeed, fetch returns the bad-status failure exactly when the HTTP
status differs from 200 — every non-200 status, 2xx or not, is rejected
— and a 200 response whose body reads successfully yields the raw body. -/
theorem claimC8_amended (statusCode : Nat) (readOk : Bool) (body : String) :
    (statusCode ≠ 200 →
      fetch (HttpOutcome.response statusCode readOk body) =
        Except.error (FetchError.badStatus statusCode)) ∧
    fetch (HttpOutcome.response 200 true body) = Except.ok body := by
  constructor
  · intro h
    simp [fetch, h]
  · rfl

/-- Claim C8, witness for the amended statement: status 503 is rejected
with the bad-status error carrying 503, and a 200 response yields its
body. -/
theorem claimC8_witness :
    fetch (HttpOutcome.response 503 true "Service Unavailable") =
      Except.error (FetchError.badStatus 503) ∧
    fetch (HttpOutcome.response 200 true "data") = Except.ok "data" :=
  ⟨(claimC8_amended 503 true "Service Unavailable").1 (by decide),
   (claimC8_amended 200 true "data").2⟩

/-- Claim C10: after a successful refresh the published up, the five
grid scalar gauges and the whole node-scoped metric set are functions of
the decoded payload alone — two exporters in arbitrary prior states end
up identical on all of them — while the grid version label set keeps the
previously accumulated version keys and adds the payload version at
value 1. -/
theorem claimC10 (a b : Exporter) (r : hubResponse) :
    (scrape a (ScrapeInput.ok r)).up = (scrape b (ScrapeInput.ok r)).up ∧
    (scrape a (ScrapeInput.ok r)).totalSlots = (scrape b (ScrapeInput.ok r)).totalSlots ∧
    (scrape a (ScrapeInput.ok r)).maxSession = (scrape b (ScrapeInput.ok r)).maxSession ∧
    (scrape a (ScrapeInput.ok r)).sessionCount = (scrape b (ScrapeInput.ok r)).sessionCount ∧
    (scrape a (ScrapeInput.ok r)).sessionQueueSize =
      (scrape b (ScrapeInput.ok r)).sessionQueueSize ∧
    (scrape a (ScrapeInput.ok r)).nodeCount = (scrape b (ScrapeInput.ok r)).nodeCount ∧
    nodeProj (scrape a (ScrapeInput.ok r)) = nodeProj (scrape b (ScrapeInput.ok r)) ∧
    ∀ v, (scrape a (ScrapeInput.ok r)).version v =
      if v = r.grid.version then some 1 else a.version v :=
  ⟨(scrape_ok_up a r).trans (scrape_ok_up b r).symm,
   (scrape_ok_totalSlots a r).trans (scrape_ok_totalSlots b r).symm,
   (scrape_ok_maxSession a r).trans (scrape_ok_maxSession b r).symm,
   (scrape_ok_sessionCount a r).trans (scrape_ok_sessionCount b r).symm,
   (scrape_ok_sessionQueueSize a r).trans (scrape_ok_sessionQueueSize b r).symm,
   (scrape_ok_nodeCount a r).trans (scrape_ok_nodeCount b r).symm,
   nodeProj_scrape_ok a b r,
   fun v => scrape_ok_version_apply a r v⟩
